import Mathlib

/-!
Shallow embedding of the device-connection and firmware-flashing core of
`src/device/microbit.ts` (class `MicrobitWebUSBConnection` plus the free
functions `withEnrichedErrors` and `enrichedError`).

Modelling conventions:
  * JavaScript `Error` values are modelled by `JsError`: the message string
    plus the optional `type` field that `enrichedError` attaches.  An error
    thrown by an external collaborator has `type = none` until (unless) it
    passes through `enrichedError`.
  * The external Device Access Driver (`PartialFlashing`, not part of the
    sources) is an oracle: a record of the outcomes of its fallible calls
    (`disconnectDapAsync`, `connectDapAsync`, `flashAsync`,
    `fullFlashAsync`) together with the `dapwrapper.boardId` string.  The
    flashing operations also report the list of progress percentages they
    feed to the supplied callback before finishing.
  * `navigator.usb` presence is a boolean `usbPresent`, fixed per instance.
  * The `EventEmitter` side of the class is a trace: `MicrobitState` holds
    the current `status` together with the list of emitted events, and
    `setStatus` appends a status event exactly as the source method does.
  * `async`/`await` sequencing is direct sequencing; each `await`ed call is
    a lookup of the corresponding oracle outcome.
-/

namespace Microbit

/-- `ConnectionErrorType` from the source: the closed taxonomy of
classified connection errors. -/
inductive ConnectionErrorType where
  | UNABLE_TO_CLAIM_INTERFACE
  | UNKNOWN
deriving DecidableEq, Repr

/-- `ConnectionStatus` from the source. -/
inductive ConnectionStatus where
  | NOT_SUPPORTED
  | NO_AUTHORIZED_DEVICE
  | NOT_CONNECTED
  | CONNECTED
deriving DecidableEq, Repr

/-- `ConnectionMode` from the source. -/
inductive ConnectionMode where
  | INTERACTIVE
  | NON_INTERACTIVE
deriving DecidableEq, Repr

/-- A JavaScript `Error` as this module observes it: the message and the
optional `type` field that `enrichedError` sets.  Raw errors from the
transport or driver carry `type = none`. -/
structure JsError where
  message : String
  type : Option ConnectionErrorType
deriving DecidableEq, Repr

/-- A WebUSB device as far as the matcher is concerned (`USBDevice`). -/
structure USBDevice where
  vendorId : Nat
  productId : Nat
deriving DecidableEq, Repr

/-- `USBDeviceFilter`: optional vendor/product ids; `none` models the
`undefined` (absent) field. -/
structure USBDeviceFilter where
  vendorId : Option Nat
  productId : Option Nat
deriving DecidableEq, Repr

/-- `MicrobitConnectionOptions` from the source. -/
structure MicrobitConnectionOptions where
  autoConnect : Bool
  deviceFilters : List USBDeviceFilter
deriving DecidableEq, Repr

/-- The defaults applied by the constructor:
`autoConnect: true, deviceFilters: [{vendorId: 0x0d28, productId: 0x0204}]`. -/
def defaultOptions : MicrobitConnectionOptions :=
  ⟨true, [⟨some 0x0d28, some 0x0204⟩]⟩

/-- Event channel name `EVENT_STATUS`. -/
def EVENT_STATUS : String := "status"

/-- Event channel name `EVENT_SERIAL_DATA`. -/
def EVENT_SERIAL_DATA : String := "serial_data"

/-- Event channel name `EVENT_SERIAL_ERROR`. -/
def EVENT_SERIAL_ERROR : String := "serial_error"

/-- Event channel name `EVENT_AUTOCONNECT_ERROR`. -/
def EVENT_AUTOCONNECT_ERROR : String := "autoconnect_error"

/-- Event channel name `EVENT_PROGRESS`. -/
def EVENT_PROGRESS : String := "progress"

/-- Payload of an emitted event: either a status value (on the status
channel) or an error value (on an error channel). -/
inductive EmitPayload where
  | statusPayload (s : ConnectionStatus)
  | errorPayload (e : JsError)
deriving DecidableEq, Repr

/-- One `this.emit(channel, payload)` occurrence. -/
structure EmittedEvent where
  channel : String
  payload : EmitPayload
deriving DecidableEq, Repr

/-- Observable state of a `MicrobitWebUSBConnection` instance: the `status`
field and the trace of events emitted so far. -/
structure MicrobitState where
  status : ConnectionStatus
  emitted : List EmittedEvent
deriving DecidableEq, Repr

/-- The field initializer of `status`:
`navigator.usb ? NO_AUTHORIZED_DEVICE : NOT_SUPPORTED`, with an empty
emission trace. -/
def initialState (usbPresent : Bool) : MicrobitState :=
  ⟨if usbPresent then ConnectionStatus.NO_AUTHORIZED_DEVICE
    else ConnectionStatus.NOT_SUPPORTED, []⟩

/-- `setStatus`: assigns the field and emits a status event. -/
def setStatus (newStatus : ConnectionStatus) (st : MicrobitState) : MicrobitState :=
  ⟨newStatus, st.emitted ++ [⟨EVENT_STATUS, EmitPayload.statusPayload newStatus⟩]⟩

/-- `this.emit(channel, e)` for an error payload. -/
def emitError (channel : String) (e : JsError) (st : MicrobitState) : MicrobitState :=
  ⟨st.status, st.emitted ++ [⟨channel, EmitPayload.errorPayload e⟩]⟩

/-- `enrichedError`: the Error Classifier.  Exact-match on the raw message;
the single special case maps to `UNABLE_TO_CLAIM_INTERFACE` with a fresh
user-facing message, everything else keeps its message and gets type
`UNKNOWN`. -/
def enrichedError (e : JsError) : JsError :=
  if e.message = "Unable to claim interface." then
    ⟨"Cannot connect. Check no other browser tabs or windows are using the micro:bit.",
      some ConnectionErrorType.UNABLE_TO_CLAIM_INTERFACE⟩
  else
    ⟨e.message, some ConnectionErrorType.UNKNOWN⟩

/-- `matchesDeviceFilter`: `deviceFilters.some(filter => (productId absent
or equal) && (vendorId absent or equal))`. -/
def matchesDeviceFilter (filters : List USBDeviceFilter) (device : USBDevice) : Bool :=
  filters.any fun filter =>
    (filter.productId.isNone || filter.productId == some device.productId) &&
      (filter.vendorId.isNone || filter.vendorId == some device.vendorId)

/-- Oracle for the Device Access Driver calls used by `connect` and
`disconnect` (`PartialFlashing` is an external collaborator, §6 of the
spec): the outcome of each fallible session call. -/
structure DapDriver where
  disconnectDapAsync : Except JsError Unit
  connectDapAsync : Except JsError Unit
deriving Repr

/-- `assertSupported`: throws `Error("Unsupported. Check connection status
first.")` when `navigator.usb` is absent. -/
def assertSupported (usbPresent : Bool) : Except JsError Unit :=
  if usbPresent then Except.ok ()
  else Except.error ⟨"Unsupported. Check connection status first.", none⟩

/-- `connectInternal`: assert support, establish the DAP session, return
`CONNECTED`. -/
def connectInternal (usbPresent : Bool) (drv : DapDriver) (_mode : ConnectionMode) :
    Except JsError ConnectionStatus :=
  match assertSupported usbPresent with
  | Except.error e => Except.error e
  | Except.ok _ =>
    match drv.connectDapAsync with
    | Except.error e => Except.error e
    | Except.ok _ => Except.ok ConnectionStatus.CONNECTED

/-- `connect`: runs `connectInternal` under `withEnrichedErrors`, setting
the status (and so emitting a status event) on success and classifying the
error on failure. -/
def connect (usbPresent : Bool) (drv : DapDriver) (mode : ConnectionMode)
    (st : MicrobitState) : MicrobitState × Except JsError ConnectionStatus :=
  match connectInternal usbPresent drv mode with
  | Except.error e => (st, Except.error (enrichedError e))
  | Except.ok s => (setStatus s st, Except.ok s)

/-- `disconnect`: under `withEnrichedErrors`, awaits the DAP teardown and
then sets the status to `NOT_CONNECTED`.  Note that in the source the
`setStatus` call sits after the awaited teardown inside the wrapped body,
so it only runs when the teardown succeeds. -/
def disconnect (drv : DapDriver) (st : MicrobitState) :
    MicrobitState × Except JsError Unit :=
  match drv.disconnectDapAsync with
  | Except.error e => (st, Except.error (enrichedError e))
  | Except.ok _ => (setStatus ConnectionStatus.NOT_CONNECTED st, Except.ok ())

/-- `getPairedDevice`: `undefined` when the capability is absent; otherwise
the filtered authorized devices, kept only when exactly one matches. -/
def getPairedDevice (usbPresent : Bool) (devices : List USBDevice)
    (opts : MicrobitConnectionOptions) : Option USBDevice :=
  if usbPresent then
    let filtered := devices.filter fun d => matchesDeviceFilter opts.deviceFilters d
    if filtered.length = 1 then filtered.head? else none
  else none

/-- `initialize`: if a paired device is found, set status to
`NOT_CONNECTED`, then (when `autoConnect`) run the background
non-interactive connect, routing its failure onto the
`EVENT_AUTOCONNECT_ERROR` channel instead of throwing. -/
def initializeConn (usbPresent : Bool) (devices : List USBDevice)
    (opts : MicrobitConnectionOptions) (drv : DapDriver) (st : MicrobitState) :
    MicrobitState :=
  match getPairedDevice usbPresent devices opts with
  | none => st
  | some _ =>
    let st1 := setStatus ConnectionStatus.NOT_CONNECTED st
    if opts.autoConnect then
      match connect usbPresent drv ConnectionMode.NON_INTERACTIVE st1 with
      | (st2, Except.error e) => emitError EVENT_AUTOCONNECT_ERROR e st2
      | (st2, Except.ok _) => st2
    else st1

/-- `handleConnect`: the USB attach listener.  For a filter-matching device
while `NO_AUTHORIZED_DEVICE`, set status to `NOT_CONNECTED` and (when
`autoConnect`) run a background non-interactive connect whose failure is
emitted on the `EVENT_SERIAL_ERROR` channel (as the source does). -/
def handleConnect (usbPresent : Bool) (opts : MicrobitConnectionOptions)
    (drv : DapDriver) (device : USBDevice) (st : MicrobitState) : MicrobitState :=
  if matchesDeviceFilter opts.deviceFilters device then
    if st.status = ConnectionStatus.NO_AUTHORIZED_DEVICE then
      let st1 := setStatus ConnectionStatus.NOT_CONNECTED st
      if opts.autoConnect then
        match connect usbPresent drv ConnectionMode.NON_INTERACTIVE st1 with
        | (st2, Except.error e) => emitError EVENT_SERIAL_ERROR e st2
        | (st2, Except.ok _) => st2
      else st1
    else st
  else st

/-- `handleDisconnect`: the USB detach listener; transitions to
`NO_AUTHORIZED_DEVICE` when the event's device is the driver's active
device (`this.connection.dapwrapper?.daplink?.device`, passed here as the
oracle value `daplinkDevice`). -/
def handleDisconnect (eventDevice : USBDevice) (daplinkDevice : Option USBDevice)
    (st : MicrobitState) : MicrobitState :=
  if daplinkDevice = some eventDevice then
    setStatus ConnectionStatus.NO_AUTHORIZED_DEVICE st
  else st

/-- Modelled from the spec: `BoardId` (from `board-id.ts`, which is not
among the sources) is the structured board identity produced by the Board
Identity Parser (§4.1); only its identity matters to the orchestrator. -/
structure BoardId where
  id : Nat
deriving DecidableEq, Repr

/-- `FlashPayload` as consumed by `flash` (`data.bytes`, `data.intelHex`):
the raw flash-region bytes and the full Intel-HEX text. -/
structure FlashPayload where
  bytes : List Nat
  intelHex : String
deriving DecidableEq, Repr

/-- Oracle for the Device Access Driver calls used by `flash`: outcomes of
the session calls, the `dapwrapper.boardId` string readable once the
session is up, and the two flashing operations.  Each flashing operation
yields the list of progress percentages it reports through the supplied
callback before its outcome. -/
structure FlashDriver where
  disconnectDapAsync : Except JsError Unit
  connectDapAsync : Except JsError Unit
  boardId : String
  flashAsync : List Nat → String → List Nat × Except JsError Unit
  fullFlashAsync : String → List Nat × Except JsError Unit

/-- Observable steps of one `flash` call: the driver/collaborator calls it
makes, in order, plus every invocation of the progress callback (with
`none` standing for the terminal `progress(undefined)` sentinel). -/
inductive FlashEvent where
  | disconnectDap
  | connectDap
  | parseBoardCall (raw : String)
  | dataSourceCall (id : BoardId)
  | flashAsyncCall (bytes : List Nat) (hex : String)
  | fullFlashAsyncCall (hex : String)
  | progress (p : Option Nat)
deriving DecidableEq, Repr

/-- `flash(dataSource, {partial, progress})`.  The board identity parser
(`BoardId.parse`, not among the sources) and the data source are passed as
oracles; `isPartial` is the `partial` option.  Returns the (untouched)
instance state, the trace of observable steps, and the outcome.  Note the
source does not wrap this body in `withEnrichedErrors`: failures propagate
verbatim. -/
def flash (drv : FlashDriver) (parseBoard : String → Except JsError BoardId)
    (dataSource : BoardId → Except JsError FlashPayload) (isPartial : Bool)
    (st : MicrobitState) : MicrobitState × List FlashEvent × Except JsError Unit :=
  match drv.disconnectDapAsync with
  | Except.error e => (st, [FlashEvent.disconnectDap], Except.error e)
  | Except.ok _ =>
    match drv.connectDapAsync with
    | Except.error e =>
      (st, [FlashEvent.disconnectDap, FlashEvent.connectDap], Except.error e)
    | Except.ok _ =>
      match parseBoard drv.boardId with
      | Except.error e =>
        (st, [FlashEvent.disconnectDap, FlashEvent.connectDap,
          FlashEvent.parseBoardCall drv.boardId], Except.error e)
      | Except.ok bid =>
        match dataSource bid with
        | Except.error e =>
          (st, [FlashEvent.disconnectDap, FlashEvent.connectDap,
            FlashEvent.parseBoardCall drv.boardId, FlashEvent.dataSourceCall bid],
            Except.error e)
        | Except.ok data =>
          if isPartial then
            match drv.flashAsync data.bytes data.intelHex with
            | (ps, Except.error e) =>
              (st, [FlashEvent.disconnectDap, FlashEvent.connectDap,
                FlashEvent.parseBoardCall drv.boardId, FlashEvent.dataSourceCall bid,
                FlashEvent.flashAsyncCall data.bytes data.intelHex] ++
                ps.map (fun p => FlashEvent.progress (some p)), Except.error e)
            | (ps, Except.ok _) =>
              (st, [FlashEvent.disconnectDap, FlashEvent.connectDap,
                FlashEvent.parseBoardCall drv.boardId, FlashEvent.dataSourceCall bid,
                FlashEvent.flashAsyncCall data.bytes data.intelHex] ++
                ps.map (fun p => FlashEvent.progress (some p)) ++
                [FlashEvent.progress none], Except.ok ())
          else
            match drv.fullFlashAsync data.intelHex with
            | (ps, Except.error e) =>
              (st, [FlashEvent.disconnectDap, FlashEvent.connectDap,
                FlashEvent.parseBoardCall drv.boardId, FlashEvent.dataSourceCall bid,
                FlashEvent.fullFlashAsyncCall data.intelHex] ++
                ps.map (fun p => FlashEvent.progress (some p)), Except.error e)
            | (ps, Except.ok _) =>
              (st, [FlashEvent.disconnectDap, FlashEvent.connectDap,
                FlashEvent.parseBoardCall drv.boardId, FlashEvent.dataSourceCall bid,
                FlashEvent.fullFlashAsyncCall data.intelHex] ++
                ps.map (fun p => FlashEvent.progress (some p)) ++
                [FlashEvent.progress none], Except.ok ())

/-- Results of two data sources agree up to the raw bytes: same error, or
payloads with the same Intel-HEX text (bytes left unconstrained). -/
def hexAgree : Except JsError FlashPayload → Except JsError FlashPayload → Prop
  | Except.ok p1, Except.ok p2 => p1.intelHex = p2.intelHex
  | Except.error e1, Except.error e2 => e1 = e2
  | _, _ => False

/-- One public operation on an instance, bundling the oracle inputs the
operation consumes (the host's authorized-device list, the driver-call
outcomes, the attach/detach event data). -/
inductive Op where
  | initOp (devices : List USBDevice) (drv : DapDriver)
  | connOp (mode : ConnectionMode) (drv : DapDriver)
  | disconnOp (drv : DapDriver)
  | attachOp (device : USBDevice) (drv : DapDriver)
  | detachOp (eventDevice : USBDevice) (daplinkDevice : Option USBDevice)

/-- Effect of one operation on the observable instance state. -/
def step (usbPresent : Bool) (opts : MicrobitConnectionOptions)
    (st : MicrobitState) : Op → MicrobitState
  | Op.initOp devices drv => initializeConn usbPresent devices opts drv st
  | Op.connOp mode drv => (connect usbPresent drv mode st).1
  | Op.disconnOp drv => (disconnect drv st).1
  | Op.attachOp device drv => handleConnect usbPresent opts drv device st
  | Op.detachOp eventDevice daplinkDevice =>
      handleDisconnect eventDevice daplinkDevice st

/-- Operations that provably cannot leave `NOT_SUPPORTED`: everything
except a `disconnect` whose teardown succeeds and a detach event matching
the driver's active device. -/
def opKeepsUnsupported : Op → Bool
  | Op.disconnOp drv =>
      match drv.disconnectDapAsync with
      | Except.ok _ => false
      | Except.error _ => true
  | Op.detachOp eventDevice daplinkDevice => !(daplinkDevice == some eventDevice)
  | _ => true

/-! Concrete fixtures used to instantiate the theorems below. -/

/-- A session driver whose calls all succeed. -/
def drvOk : DapDriver := ⟨Except.ok (), Except.ok ()⟩

/-- A session driver whose teardown fails with a raw (untyped) error. -/
def drvTeardownFail : DapDriver := ⟨Except.error ⟨"boom", none⟩, Except.ok ()⟩

/-- A session driver whose session establishment fails with a raw error. -/
def drvConnectFail : DapDriver := ⟨Except.ok (), Except.error ⟨"boom", none⟩⟩

/-- The micro:bit device matched by the default filter. -/
def mbDevice : USBDevice := ⟨0x0d28, 0x0204⟩

/-- A short Intel-HEX text. -/
def sampleHex : String := ":00000001FF"

/-- A payload with both raw bytes and HEX text. -/
def samplePayload : FlashPayload := ⟨[1, 2, 3], sampleHex⟩

/-- A flash driver whose calls all succeed; its partial-flash operation
reports progress 10 and 50, its full-flash operation reports 25. -/
def fdriverOk : FlashDriver :=
  ⟨Except.ok (), Except.ok (), "9900",
    fun _ _ => ([10, 50], Except.ok ()),
    fun _ => ([25], Except.ok ())⟩

/-- A flash driver whose initial session teardown fails with the raw
interface-claim error. -/
def fdriverClaimFail : FlashDriver :=
  ⟨Except.error ⟨"Unable to claim interface.", none⟩, Except.ok (), "9900",
    fun _ _ => ([], Except.ok ()),
    fun _ => ([], Except.ok ())⟩

/-- A board-identity parser oracle that always succeeds. -/
def parseOk : String → Except JsError BoardId := fun _ => Except.ok ⟨0x9900⟩

/-- A data source returning `samplePayload`. -/
def dsOk : BoardId → Except JsError FlashPayload := fun _ => Except.ok samplePayload

/-- A data source agreeing with `dsOk` on the HEX text but with different
raw bytes. -/
def dsOtherBytes : BoardId → Except JsError FlashPayload :=
  fun _ => Except.ok ⟨[9, 9], sampleHex⟩

/-- C6: the device matcher returns true iff some filter in the set has its
vendor id unset or equal to the device's and its product id unset or equal
to the device's; it is a pure function of the device and filter set. -/
theorem matchesDeviceFilter_spec (device : USBDevice) (filters : List USBDeviceFilter) :
    matchesDeviceFilter filters device = true ↔
      ∃ f ∈ filters,
        (f.vendorId = none ∨ f.vendorId = some device.vendorId) ∧
          (f.productId = none ∨ f.productId = some device.productId) := by
  simp only [matchesDeviceFilter, List.any_eq_true, Bool.and_eq_true, Bool.or_eq_true,
    Option.isNone_iff_eq_none, beq_iff_eq]
  constructor
  · rintro ⟨f, hf, hp, hv⟩
    exact ⟨f, hf, hv, hp⟩
  · rintro ⟨f, hf, hv, hp⟩
    exact ⟨f, hf, hp, hv⟩

/-- C7: the classifier maps the exact raw message "Unable to claim
interface." to the `UNABLE_TO_CLAIM_INTERFACE` kind with the message
telling the user to close other sessions, maps any other raw message to
`UNKNOWN` preserving the message, and always attaches exactly one kind. -/
theorem enrichedError_spec (e : JsError) :
    (e.message = "Unable to claim interface." →
      enrichedError e =
        ⟨"Cannot connect. Check no other browser tabs or windows are using the micro:bit.",
          some ConnectionErrorType.UNABLE_TO_CLAIM_INTERFACE⟩) ∧
    (e.message ≠ "Unable to claim interface." →
      enrichedError e = ⟨e.message, some ConnectionErrorType.UNKNOWN⟩) ∧
    ∃ k, (enrichedError e).type = some k := by
  by_cases h : e.message = "Unable to claim interface."
  · exact ⟨fun _ => by simp [enrichedError, h],
      fun hne => absurd h hne,
      ConnectionErrorType.UNABLE_TO_CLAIM_INTERFACE, by simp [enrichedError, h]⟩
  · exact ⟨fun heq => absurd heq h,
      fun _ => by simp [enrichedError, h],
      ConnectionErrorType.UNKNOWN, by simp [enrichedError, h]⟩

/-- Witness for C7: the classifier applied to the raw interface-claim
error. -/
theorem enrichedError_spec_witness :
    enrichedError ⟨"Unable to claim interface.", none⟩ =
      ⟨"Cannot connect. Check no other browser tabs or windows are using the micro:bit.",
        some ConnectionErrorType.UNABLE_TO_CLAIM_INTERFACE⟩ :=
  (enrichedError_spec ⟨"Unable to claim interface.", none⟩).1 rfl

/-- C5 (amended): with the capability absent, `connect` fails for every
mode with the "Unsupported. Check connection status first." error, which
the classifier types as `UNKNOWN` (the taxonomy has no NotSupported kind);
the state — in particular the status — is unchanged, so status is never
set to `CONNECTED` by the call. -/
theorem connect_unsupported_spec (mode : ConnectionMode) (drv : DapDriver)
    (st : MicrobitState) :
    connect false drv mode st =
      (st, Except.error ⟨"Unsupported. Check connection status first.",
        some ConnectionErrorType.UNKNOWN⟩) := by
  simp [connect, connectInternal, assertSupported, enrichedError]

/-- Counterexample for C5: on a capability-absent host, `connect` surfaces
an error classified with kind `UNKNOWN` — not a NotSupported kind, which
the `ConnectionErrorType` taxonomy does not contain. -/
theorem connect_unsupported_kind_cex :
    (connect false drvOk ConnectionMode.INTERACTIVE (initialState false)).2 =
      Except.error ⟨"Unsupported. Check connection status first.",
        some ConnectionErrorType.UNKNOWN⟩ ∧
    (connect false drvOk ConnectionMode.INTERACTIVE (initialState false)).1.status =
      ConnectionStatus.NOT_SUPPORTED := by
  exact ⟨rfl, rfl⟩

/-- C3 (amended): `disconnect` sets status to `NOT_CONNECTED` exactly when
the driver teardown succeeds; when the teardown raises, the error is
classified and surfaced but the instance state — status included — is left
unchanged. -/
theorem disconnect_status_spec (drv : DapDriver) (st : MicrobitState) :
    (drv.disconnectDapAsync = Except.ok () →
      (disconnect drv st).1.status = ConnectionStatus.NOT_CONNECTED ∧
        (disconnect drv st).2 = Except.ok ()) ∧
    ∀ e, drv.disconnectDapAsync = Except.error e →
      (disconnect drv st).1 = st ∧
        (disconnect drv st).2 = Except.error (enrichedError e) := by
  unfold disconnect
  cases h : drv.disconnectDapAsync with
  | ok u =>
    exact ⟨fun _ => ⟨rfl, rfl⟩, fun e he => Except.noConfusion he⟩
  | error e0 =>
    refine ⟨fun h' => Except.noConfusion h', fun e he => ?_⟩
    injection he with h1
    subst h1
    exact ⟨rfl, rfl⟩

/-- Witness for C3's theorem: a successful teardown on a connected
instance. -/
theorem disconnect_status_spec_witness :
    (disconnect drvOk (initialState true)).1.status = ConnectionStatus.NOT_CONNECTED ∧
      (disconnect drvOk (initialState true)).2 = Except.ok () :=
  (disconnect_status_spec drvOk (initialState true)).1 rfl

/-- Counterexample for C3: when the teardown raises, the status is NOT
updated to `NOT_CONNECTED` — it stays `CONNECTED` — although the claim
says the update still happens; the error is classified and surfaced. -/
theorem disconnect_status_cex :
    (disconnect drvTeardownFail ⟨ConnectionStatus.CONNECTED, []⟩).1.status =
      ConnectionStatus.CONNECTED ∧
    (disconnect drvTeardownFail ⟨ConnectionStatus.CONNECTED, []⟩).2 =
      Except.error ⟨"boom", some ConnectionErrorType.UNKNOWN⟩ := by
  exact ⟨rfl, rfl⟩

/-- C4 (amended): on a capability-absent instance, status is
`NOT_SUPPORTED` and stays so under any sequence of `initialize`, `connect`
(either mode), attach-handler invocations, `disconnect` calls whose
teardown fails, and detach events not matching the driver's active device
— but `disconnect` never checks the capability, so a `disconnect` whose
teardown succeeds leaves `NOT_SUPPORTED` (see the counterexample):
`NOT_SUPPORTED` is not a sink. -/
theorem notSupported_preserved (opts : MicrobitConnectionOptions) (ops : List Op)
    (st : MicrobitState) (hst : st.status = ConnectionStatus.NOT_SUPPORTED)
    (hops : ∀ op ∈ ops, opKeepsUnsupported op = true) :
    (ops.foldl (step false opts) st).status = ConnectionStatus.NOT_SUPPORTED := by
  induction ops generalizing st with
  | nil => exact hst
  | cons op rest ih =>
    rw [List.foldl_cons]
    have hop := hops op (List.mem_cons_self op rest)
    refine ih (step false opts st op) ?_ fun op2 h2 => hops op2 (List.mem_cons_of_mem _ h2)
    cases op with
    | initOp devices drv =>
      simpa [step, initializeConn, getPairedDevice] using hst
    | connOp mode drv =>
      simpa [step, connect, connectInternal, assertSupported] using hst
    | disconnOp drv =>
      simp only [step, disconnect]
      cases h : drv.disconnectDapAsync with
      | ok u => simp [opKeepsUnsupported, h] at hop
      | error e => exact hst
    | attachOp device drv =>
      simp only [step, handleConnect, hst]
      simp [hst]
    | detachOp eventDevice daplinkDevice =>
      simp only [step, handleDisconnect]
      have hne : ¬daplinkDevice = some eventDevice := by
        simpa [opKeepsUnsupported] using hop
      rw [if_neg hne]
      exact hst

/-- Witness for C4's theorem: a five-operation run on a capability-absent
instance that stays `NOT_SUPPORTED` throughout. -/
theorem notSupported_preserved_witness :
    (([Op.connOp ConnectionMode.INTERACTIVE drvOk,
        Op.attachOp mbDevice drvOk,
        Op.disconnOp drvTeardownFail,
        Op.detachOp mbDevice none,
        Op.initOp [mbDevice] drvOk] : List Op).foldl
        (step false defaultOptions) (initialState false)).status =
      ConnectionStatus.NOT_SUPPORTED :=
  notSupported_preserved defaultOptions _ (initialState false) rfl (by decide)

/-- Counterexample for C4: a capability-absent instance starts at
`NOT_SUPPORTED`, yet a single `disconnect` whose teardown succeeds (the
spec itself makes teardown an idempotent no-op when no session is active)
moves the status to `NOT_CONNECTED`: `NOT_SUPPORTED` is not a sink. -/
theorem notSupported_sink_cex :
    (initialState false).status = ConnectionStatus.NOT_SUPPORTED ∧
    (step false defaultOptions (initialState false) (Op.disconnOp drvOk)).status =
      ConnectionStatus.NOT_CONNECTED :=
  ⟨rfl, rfl⟩

/-- C1: a successful `flash` performs exactly, and in this order, the
session teardown, a fresh session establishment, the board-identity parse
from the connected device, the data-source call with the parsed identity,
the partial-flash operation (raw bytes plus full HEX) when `partial` is
true and otherwise the full-flash operation (HEX text alone), and then the
terminal progress sentinel (`none`) exactly once, after every
driver progress call. -/
theorem flash_success_sequence (drv : FlashDriver)
    (parseBoard : String → Except JsError BoardId)
    (dataSource : BoardId → Except JsError FlashPayload) (isPartial : Bool)
    (st : MicrobitState) (bid : BoardId) (data : FlashPayload) (ps : List Nat)
    (h1 : drv.disconnectDapAsync = Except.ok ())
    (h2 : drv.connectDapAsync = Except.ok ())
    (h3 : parseBoard drv.boardId = Except.ok bid)
    (h4 : dataSource bid = Except.ok data)
    (h5 : (if isPartial then drv.flashAsync data.bytes data.intelHex
            else drv.fullFlashAsync data.intelHex) = (ps, Except.ok ())) :
    flash drv parseBoard dataSource isPartial st =
      (st,
        [FlashEvent.disconnectDap, FlashEvent.connectDap,
          FlashEvent.parseBoardCall drv.boardId, FlashEvent.dataSourceCall bid,
          if isPartial then FlashEvent.flashAsyncCall data.bytes data.intelHex
          else FlashEvent.fullFlashAsyncCall data.intelHex] ++
          ps.map (fun p => FlashEvent.progress (some p)) ++
          [FlashEvent.progress none],
        Except.ok ()) := by
  cases isPartial with
  | false =>
    simp only [Bool.false_eq_true, if_false] at h5 ⊢
    simp [flash, h1, h2, h3, h4, h5]
  | true =>
    simp only [if_true] at h5 ⊢
    simp [flash, h1, h2, h3, h4, h5]

/-- Witness for C1: a fully successful partial flash with driver progress
reports 10 and 50 followed by the single terminal sentinel. -/
theorem flash_success_sequence_witness :
    flash fdriverOk parseOk dsOk true (initialState true) =
      (initialState true,
        [FlashEvent.disconnectDap, FlashEvent.connectDap,
          FlashEvent.parseBoardCall fdriverOk.boardId,
          FlashEvent.dataSourceCall ⟨0x9900⟩,
          if true then FlashEvent.flashAsyncCall samplePayload.bytes samplePayload.intelHex
          else FlashEvent.fullFlashAsyncCall samplePayload.intelHex] ++
          ([10, 50].map fun p => FlashEvent.progress (some p)) ++
          [FlashEvent.progress none],
        Except.ok ()) :=
  flash_success_sequence fdriverOk parseOk dsOk true (initialState true)
    ⟨0x9900⟩ samplePayload [10, 50] rfl rfl rfl rfl rfl

/-- C10: `flash` leaves the instance state — the `status` field and the
emitted-event trace — untouched on every path, success or failure: it
never calls `setStatus` and never emits. -/
theorem flash_preserves_state (drv : FlashDriver)
    (parseBoard : String → Except JsError BoardId)
    (dataSource : BoardId → Except JsError FlashPayload) (isPartial : Bool)
    (st : MicrobitState) :
    (flash drv parseBoard dataSource isPartial st).1 = st := by
  cases hdd : drv.disconnectDapAsync with
  | error e => simp [flash, hdd]
  | ok u =>
    cases hcd : drv.connectDapAsync with
    | error e => simp [flash, hdd, hcd]
    | ok u2 =>
      cases hp : parseBoard drv.boardId with
      | error e => simp [flash, hdd, hcd, hp]
      | ok bid =>
        cases hd : dataSource bid with
        | error e => simp [flash, hdd, hcd, hp, hd]
        | ok data =>
          cases isPartial with
          | false =>
            cases hop : drv.fullFlashAsync data.intelHex with
            | mk ps r =>
              cases r with
              | error e => simp [flash, hdd, hcd, hp, hd, hop]
              | ok u3 => simp [flash, hdd, hcd, hp, hd, hop]
          | true =>
            cases hop : drv.flashAsync data.bytes data.intelHex with
            | mk ps r =>
              cases r with
              | error e => simp [flash, hdd, hcd, hp, hd, hop]
              | ok u3 => simp [flash, hdd, hcd, hp, hd, hop]

/-- C9: with `partial: false`, `flash` never reads the payload's raw
bytes: for any two data sources whose results agree on the error or on the
Intel-HEX text (bytes unconstrained), the whole observable behaviour —
state, call/progress trace, and outcome — is identical. -/
theorem flash_full_ignores_bytes (drv : FlashDriver)
    (parseBoard : String → Except JsError BoardId)
    (ds1 ds2 : BoardId → Except JsError FlashPayload) (st : MicrobitState)
    (h : ∀ bid, hexAgree (ds1 bid) (ds2 bid)) :
    flash drv parseBoard ds1 false st = flash drv parseBoard ds2 false st := by
  cases hdd : drv.disconnectDapAsync with
  | error e => simp [flash, hdd]
  | ok u =>
    cases hcd : drv.connectDapAsync with
    | error e => simp [flash, hdd, hcd]
    | ok u2 =>
      cases hp : parseBoard drv.boardId with
      | error e => simp [flash, hdd, hcd, hp]
      | ok bid =>
        have hb := h bid
        cases hd1 : ds1 bid with
        | error e1 =>
          cases hd2 : ds2 bid with
          | error e2 =>
            rw [hd1, hd2] at hb
            simp only [hexAgree] at hb
            simp [flash, hdd, hcd, hp, hd1, hd2, hb]
          | ok p2 =>
            rw [hd1, hd2] at hb
            simp [hexAgree] at hb
        | ok p1 =>
          cases hd2 : ds2 bid with
          | error e2 =>
            rw [hd1, hd2] at hb
            simp [hexAgree] at hb
          | ok p2 =>
            rw [hd1, hd2] at hb
            simp only [hexAgree] at hb
            simp only [flash, hdd, hcd, hp, hd1, hd2, hb, Bool.false_eq_true, if_false]

/-- Witness for C9: two data sources returning payloads with identical HEX
text but different raw bytes produce identical full-flash runs. -/
theorem flash_full_ignores_bytes_witness :
    flash fdriverOk parseOk dsOk false (initialState true) =
      flash fdriverOk parseOk dsOtherBytes false (initialState true) :=
  flash_full_ignores_bytes fdriverOk parseOk dsOk dsOtherBytes (initialState true)
    fun _ => rfl

/-- C2 (amended): any failure in steps 1–5 of `flash` aborts the sequence
without the terminal progress sentinel, and the surfaced error is exactly
the raw error of the failing step, propagated verbatim — `flash` is not
wrapped in `withEnrichedErrors`, so no classification happens. -/
theorem flash_failure_aborts_raw (drv : FlashDriver)
    (parseBoard : String → Except JsError BoardId)
    (dataSource : BoardId → Except JsError FlashPayload) (isPartial : Bool)
    (st : MicrobitState) (e : JsError)
    (herr : (flash drv parseBoard dataSource isPartial st).2.2 = Except.error e) :
    FlashEvent.progress none ∉ (flash drv parseBoard dataSource isPartial st).2.1 ∧
      (drv.disconnectDapAsync = Except.error e ∨
        drv.connectDapAsync = Except.error e ∨
        parseBoard drv.boardId = Except.error e ∨
        (∃ bid, parseBoard drv.boardId = Except.ok bid ∧
          dataSource bid = Except.error e) ∨
        (∃ bid data ps, parseBoard drv.boardId = Except.ok bid ∧
          dataSource bid = Except.ok data ∧
          ((isPartial = true ∧
              drv.flashAsync data.bytes data.intelHex = (ps, Except.error e)) ∨
            (isPartial = false ∧
              drv.fullFlashAsync data.intelHex = (ps, Except.error e))))) := by
  cases hdd : drv.disconnectDapAsync with
  | error e0 =>
    have h0 : e0 = e := by simpa [flash, hdd] using herr
    subst h0
    refine ⟨?_, Or.inl rfl⟩
    simp [flash, hdd]
  | ok u =>
    cases hcd : drv.connectDapAsync with
    | error e0 =>
      have h0 : e0 = e := by simpa [flash, hdd, hcd] using herr
      subst h0
      refine ⟨?_, Or.inr (Or.inl rfl)⟩
      simp [flash, hdd, hcd]
    | ok u2 =>
      cases hp : parseBoard drv.boardId with
      | error e0 =>
        have h0 : e0 = e := by simpa [flash, hdd, hcd, hp] using herr
        subst h0
        refine ⟨?_, Or.inr (Or.inr (Or.inl rfl))⟩
        simp [flash, hdd, hcd, hp]
      | ok bid =>
        cases hd : dataSource bid with
        | error e0 =>
          have h0 : e0 = e := by simpa [flash, hdd, hcd, hp, hd] using herr
          subst h0
          refine ⟨?_, Or.inr (Or.inr (Or.inr (Or.inl ⟨bid, rfl, hd⟩)))⟩
          simp [flash, hdd, hcd, hp, hd]
        | ok data =>
          cases isPartial with
          | true =>
            cases hop : drv.flashAsync data.bytes data.intelHex with
            | mk ps r =>
              cases r with
              | error e0 =>
                have h0 : e0 = e := by
                  simpa [flash, hdd, hcd, hp, hd, hop] using herr
                subst h0
                refine ⟨?_, Or.inr (Or.inr (Or.inr (Or.inr
                  ⟨bid, data, ps, rfl, hd, Or.inl ⟨rfl, hop⟩⟩)))⟩
                simp [flash, hdd, hcd, hp, hd, hop]
              | ok u3 =>
                simp [flash, hdd, hcd, hp, hd, hop] at herr
          | false =>
            cases hop : drv.fullFlashAsync data.intelHex with
            | mk ps r =>
              cases r with
              | error e0 =>
                have h0 : e0 = e := by
                  simpa [flash, hdd, hcd, hp, hd, hop] using herr
                subst h0
                refine ⟨?_, Or.inr (Or.inr (Or.inr (Or.inr
                  ⟨bid, data, ps, rfl, hd, Or.inr ⟨rfl, hop⟩⟩)))⟩
                simp [flash, hdd, hcd, hp, hd, hop]
              | ok u3 =>
                simp [flash, hdd, hcd, hp, hd, hop] at herr

/-- Witness for C2's amended theorem: a partial flash whose initial
teardown fails with the raw interface-claim error aborts without the
terminal sentinel and surfaces that raw error. -/
theorem flash_failure_aborts_raw_witness :
    FlashEvent.progress none ∉
      (flash fdriverClaimFail parseOk dsOk true (initialState true)).2.1 ∧
      (fdriverClaimFail.disconnectDapAsync =
          Except.error ⟨"Unable to claim interface.", none⟩ ∨
        fdriverClaimFail.connectDapAsync =
          Except.error ⟨"Unable to claim interface.", none⟩ ∨
        parseOk fdriverClaimFail.boardId =
          Except.error ⟨"Unable to claim interface.", none⟩ ∨
        (∃ bid, parseOk fdriverClaimFail.boardId = Except.ok bid ∧
          dsOk bid = Except.error ⟨"Unable to claim interface.", none⟩) ∨
        (∃ bid data ps, parseOk fdriverClaimFail.boardId = Except.ok bid ∧
          dsOk bid = Except.ok data ∧
          ((true = true ∧
              fdriverClaimFail.flashAsync data.bytes data.intelHex =
                (ps, Except.error ⟨"Unable to claim interface.", none⟩)) ∨
            (true = false ∧
              fdriverClaimFail.fullFlashAsync data.intelHex =
                (ps, Except.error ⟨"Unable to claim interface.", none⟩))))) :=
  flash_failure_aborts_raw fdriverClaimFail parseOk dsOk true (initialState true)
    ⟨"Unable to claim interface.", none⟩ rfl

/-- Counterexample for C2: the teardown failure "Unable to claim
interface." escapes `flash` verbatim — type field still unset, message
still raw — whereas the Error Classifier would have produced a different
error; so the error is surfaced unclassified. -/
theorem flash_error_unclassified_cex :
    (flash fdriverClaimFail parseOk dsOk true (initialState true)).2.2 =
      Except.error ⟨"Unable to claim interface.", none⟩ ∧
    enrichedError ⟨"Unable to claim interface.", none⟩ ≠
      ⟨"Unable to claim interface.", none⟩ := by
  refine ⟨rfl, ?_⟩
  simp [enrichedError]

/-- C8: evaluating the attach handler at the failing input — a
filter-matching device attaches while status is `NO_AUTHORIZED_DEVICE`
with `autoConnect` enabled and the background non-interactive connect
failing — shows the status transition to `NOT_CONNECTED` happens and
exactly one failure notification is emitted, but it is delivered on the
serial-error channel, not on the dedicated autoconnect-error channel that
`initialize` uses for the same purpose. -/
theorem handleConnect_serial_error_channel :
    handleConnect true defaultOptions drvConnectFail mbDevice (initialState true) =
      ⟨ConnectionStatus.NOT_CONNECTED,
        [⟨EVENT_STATUS, EmitPayload.statusPayload ConnectionStatus.NOT_CONNECTED⟩,
          ⟨EVENT_SERIAL_ERROR,
            EmitPayload.errorPayload ⟨"boom", some ConnectionErrorType.UNKNOWN⟩⟩]⟩ ∧
      EVENT_SERIAL_ERROR ≠ EVENT_AUTOCONNECT_ERROR := by
  refine ⟨rfl, ?_⟩
  simp [EVENT_SERIAL_ERROR, EVENT_AUTOCONNECT_ERROR]

end Microbit
